import Mathlib

/-!
Shallow embedding of the session registry and messaging task runner of the
insta-bot backend (`src/backend.py`): the `SessionManager` class, the
`InstagramBotManager` send operations, and the `/api/login` route.

Modelling conventions: `datetime.now()` is an explicit natural-number
argument `now` (whole seconds); the `uuid4` token of `create_session` is an
explicit argument; the Python dict `self.sessions` is an insertion-ordered
association list with unique keys; the instagrapi client is an injected
capability record, and a ghost list of `CapCall` values records every call
made to it; the unit-interval sample consumed by `random.uniform` is an
explicit stream `u : ℕ → ℚ`, one fresh draw per inter-message delay.
-/

/-- State of `InstagramBotManager` (backend.py line 174): login flag and
recorded identity (`self.is_logged_in`, `self.username`). -/
structure InstagramBotManager where
  is_logged_in : Bool
  username : Option String
deriving DecidableEq

/-- `InstagramBotManager.__init__`: starts logged out with no identity. -/
def initial_bot : InstagramBotManager :=
  { is_logged_in := false, username := none }

/-- One record of `self.sessions` (backend.py lines 82-88). -/
structure Session where
  username : String
  created_at : ℕ
  last_activity : ℕ
  expires_at : ℕ
  bot_manager : InstagramBotManager
deriving DecidableEq

/-- The session registry (backend.py line 72). -/
structure SessionManager where
  sessions : List (String × Session)
deriving DecidableEq

/-- `self.session_timeout = 3600` (backend.py line 75). -/
def session_timeout : ℕ := 3600

/-- Lookup of a key in the association list: `session_id in self.sessions`
followed by `self.sessions[session_id]`. -/
def lookupList (l : List (String × Session)) (session_id : String) : Option Session :=
  (l.find? (fun p => p.1 == session_id)).map Prod.snd

def SessionManager.lookup (m : SessionManager) (session_id : String) : Option Session :=
  lookupList m.sessions session_id

/-- `del self.sessions[session_id]` on a unique-key map: drop the entry
carrying this key. -/
def eraseKey (l : List (String × Session)) (session_id : String) : List (String × Session) :=
  l.filter (fun p => p.1 != session_id)

/-- In-place update of the record stored under a key, when present. -/
def updateKey (l : List (String × Session)) (session_id : String) (f : Session → Session) :
    List (String × Session) :=
  l.map (fun p => if p.1 = session_id then (p.1, f p.2) else p)

/-- `SessionManager.create_session` (backend.py lines 77-91): store a fresh
record under the token, with `created_at = last_activity = now` and
`expires_at = now + session_timeout`, owning a freshly constructed bot. -/
def create_session (m : SessionManager) (session_id username : String) (now : ℕ) :
    SessionManager :=
  { sessions := m.sessions ++
      [(session_id,
        { username := username, created_at := now, last_activity := now,
          expires_at := now + session_timeout, bot_manager := initial_bot })] }

/-- `SessionManager.get_session` (backend.py lines 93-106): absent if the
token is unknown; if `now > expires_at` the record is deleted and absent is
returned; otherwise the record is returned unchanged. -/
def get_session (m : SessionManager) (session_id : String) (now : ℕ) :
    Option Session × SessionManager :=
  match lookupList m.sessions session_id with
  | none => (none, m)
  | some session =>
    if session.expires_at < now then
      (none, { sessions := eraseKey m.sessions session_id })
    else
      (some session, m)

/-- `SessionManager.update_activity` (backend.py lines 108-111): rewrite
`last_activity` to `now` when the token is present, otherwise do nothing. -/
def update_activity (m : SessionManager) (session_id : String) (now : ℕ) : SessionManager :=
  { sessions := updateKey m.sessions session_id (fun s => { s with last_activity := now }) }

/-- `SessionManager.delete_session` (backend.py lines 113-118): remove the
record when present, no error when absent. -/
def delete_session (m : SessionManager) (session_id : String) : SessionManager :=
  { sessions := eraseKey m.sessions session_id }

/-- `SessionManager.cleanup_expired_sessions` (backend.py lines 120-130):
delete every record with `now > expires_at`. -/
def cleanup_expired_sessions (m : SessionManager) (now : ℕ) : SessionManager :=
  { sessions := m.sessions.filter (fun p => ! decide (p.2.expires_at < now)) }

/-- The snapshot row returned by `get_active_sessions` (backend.py lines 36-41). -/
structure SessionInfo where
  session_id : String
  username : String
  created_at : ℕ
  last_activity : ℕ
  expires_at : ℕ
deriving DecidableEq

/-- `SessionManager.get_active_sessions` (backend.py lines 132-144): sweep
expired records first, then snapshot all remaining ones. -/
def get_active_sessions (m : SessionManager) (now : ℕ) :
    List SessionInfo × SessionManager :=
  let m2 := cleanup_expired_sessions m now
  (m2.sessions.map (fun p =>
      { session_id := p.1, username := p.2.username, created_at := p.2.created_at,
        last_activity := p.2.last_activity, expires_at := p.2.expires_at }),
   m2)

/-- Fixed-window expiry equation every registry record is created with. -/
def SessionInvariant (m : SessionManager) : Prop :=
  ∀ p ∈ m.sessions, p.2.expires_at = p.2.created_at + session_timeout

/-- Per-recipient outcome (backend.py lines 53-56). -/
structure MessageResult where
  username : String
  success : Bool
  error : Option String
deriving DecidableEq

/-- The injected instagrapi client capability: `user_info_by_username`
as wrapped by `get_user_id` (backend.py lines 246-253), which absorbs every
client error into absence, and `direct_send`, which either succeeds or
raises with an error message. -/
structure Capability where
  user_info_by_username : String → Option String
  direct_send : String → String → Except String Unit

/-- Ghost record of one call made to the external client. -/
inductive CapCall where
  | user_info_by_username (username : String)
  | direct_send (message user_id : String)
deriving DecidableEq

/-- `InstagramBotManager.get_user_id` (backend.py lines 246-253). -/
def get_user_id (cap : Capability) (username : String) : Option String :=
  cap.user_info_by_username username

/-- `InstagramBotManager.send_message` (backend.py lines 255-272), paired
with the ghost list of client calls it makes: not logged in short-circuits
with no client call; an absent user id fails with "User not found"; a
`direct_send` error is caught and reported as text. -/
def send_message (bot : InstagramBotManager) (cap : Capability) (username message : String) :
    MessageResult × List CapCall :=
  if bot.is_logged_in = false then
    ({ username := username, success := false, error := some "Not logged in" }, [])
  else
    match get_user_id cap username with
    | none =>
        ({ username := username, success := false, error := some "User not found" },
         [CapCall.user_info_by_username username])
    | some user_id =>
        match cap.direct_send message user_id with
        | Except.ok _ =>
            ({ username := username, success := true, error := none },
             [CapCall.user_info_by_username username, CapCall.direct_send message user_id])
        | Except.error e =>
            ({ username := username, success := false,
               error := some ("Failed to send message: " ++ e) },
             [CapCall.user_info_by_username username, CapCall.direct_send message user_id])

/-- `random.uniform(a, b) = a + (b - a) * random()` for a unit-interval
sample `u`. -/
def uniform (a b u : ℚ) : ℚ := a + (b - a) * u

/-- Observable outcome of one batch send: the ordered result list, the
ordered list of sampled sleep durations, and the ghost client-call list. -/
structure BatchOut where
  results : List MessageResult
  delays : List ℚ
  calls : List CapCall
deriving DecidableEq

/-- The `for i, username in enumerate(usernames)` loop of
`send_messages_batch` (backend.py lines 284-296): send to each handle in
order, and sleep a uniform draw exactly when `i < total - 1`. -/
def batch_loop (bot : InstagramBotManager) (cap : Capability) (message : String)
    (delay_lo delay_hi : ℚ) (u : ℕ → ℚ) (total : ℕ) :
    List String → ℕ → BatchOut
  | [], _ => { results := [], delays := [], calls := [] }
  | username :: rest, i =>
    let sent := send_message bot cap username message
    let tail := batch_loop bot cap message delay_lo delay_hi u total rest (i + 1)
    if i < total - 1 then
      { results := sent.1 :: tail.results,
        delays := uniform delay_lo delay_hi (u i) :: tail.delays,
        calls := sent.2 ++ tail.calls }
    else
      { results := sent.1 :: tail.results, delays := tail.delays,
        calls := sent.2 ++ tail.calls }

/-- `InstagramBotManager.send_messages_batch` (backend.py lines 274-303):
when not logged in, a full list of "Not logged in" failures with no client
call and no sleep; otherwise the enumerate loop over the handles. -/
def send_messages_batch (bot : InstagramBotManager) (cap : Capability)
    (usernames : List String) (message : String) (delay_lo delay_hi : ℚ) (u : ℕ → ℚ) :
    BatchOut :=
  if bot.is_logged_in = false then
    { results := usernames.map
        (fun un => { username := un, success := false, error := some "Not logged in" }),
      delays := [], calls := [] }
  else
    batch_loop bot cap message delay_lo delay_hi u usernames.length usernames 0

/-- Challenge payload surfaced to the caller (backend.py lines 58-63). -/
structure ChallengeResponse where
  requires_verification : Bool
  challenge_type : String
  challenge_url : Option String
  phone_number : Option String
  message : String
deriving DecidableEq

/-- Outcome of one `self.client.login(...)` round-trip: the four paths the
`try` of `InstagramBotManager.login` (backend.py lines 181-244)
distinguishes — success, `ChallengeRequired` (with challenge type, the
exception text used as challenge url, and an optional phone number),
`LoginRequired`, or any other raised error with its message. -/
inductive AuthResult where
  | ok
  | challengeRequired (challenge_type : String) (text : String) (phone_number : Option String)
  | loginRequired
  | raisedError (msg : String)
deriving DecidableEq

/-- Return-or-raise behaviour of `InstagramBotManager.login`: either the
`(success, challenge)` pair, or a raised `HTTPException` with its status. -/
inductive LoginReturn where
  | ret (success : Bool) (challenge : Option ChallengeResponse)
  | httpException (status : ℕ) (detail : String)
deriving DecidableEq

def listPre : List Char → List Char → Bool
  | [], _ => true
  | _ :: _, [] => false
  | a :: as, b :: bs => a == b && listPre as bs

/-- Python `sub in s` substring test. -/
def strContains (s sub : String) : Bool :=
  (List.range (s.data.length + 1)).any (fun i => listPre sub.data (s.data.drop i))

/-- `InstagramBotManager.login` (backend.py lines 181-244): on success set
the login flag and identity and return `(True, None)`; on
`ChallengeRequired` return `(False, challenge)` with the bot unchanged; on
`LoginRequired` raise 401; on any other error raise 500 with the message,
except the `ChallengeResolve`/`Unknown step_name` shape, which returns a
phone-verification challenge. -/
def bot_login (bot : InstagramBotManager) (username : String) (auth : AuthResult) :
    InstagramBotManager × LoginReturn :=
  match auth with
  | AuthResult.ok =>
      ({ bot with is_logged_in := true, username := some username },
       LoginReturn.ret true none)
  | AuthResult.challengeRequired ctype text phone =>
      (bot, LoginReturn.ret false (some
        { requires_verification := true, challenge_type := ctype,
          challenge_url := some text, phone_number := phone,
          message := "Instagram requires " ++ ctype ++ " verification" }))
  | AuthResult.loginRequired =>
      (bot, LoginReturn.httpException 401
        "Invalid credentials. Please check your username and password.")
  | AuthResult.raisedError msg =>
      if strContains msg "ChallengeResolve" && strContains msg "Unknown step_name" then
        (bot, LoginReturn.ret false (some
          { requires_verification := true, challenge_type := "Phone Verification",
            challenge_url := none, phone_number := none,
            message := "Instagram requires phone verification. Please complete verification on your phone and try again." }))
      else
        (bot, LoginReturn.httpException 500 ("Login failed: " ++ msg))

/-- Overall outcome of the `/api/login` route: a returned `BotResponse`
(success, challenge, or plain failure), or a propagated `HTTPException`. -/
inductive RouteOutcome where
  | ok (message : String)
  | challenge (c : ChallengeResponse)
  | failed (message : String)
  | raised (status : ℕ) (detail : String)
deriving DecidableEq

/-- In-place mutation of the bot object owned by a session (the route holds
a reference to `session['bot_manager']` and the login call mutates it). -/
def set_bot (m : SessionManager) (session_id : String) (bot : InstagramBotManager) :
    SessionManager :=
  { sessions := updateKey m.sessions session_id (fun s => { s with bot_manager := bot }) }

/-- The `/api/login` route (backend.py lines 340-379): create a session,
fetch it back (never expired, being brand new), run the bot login on its
bot; keep the session when the call returns success or a challenge, delete
it when the call returns `(False, None)` ("Remove session if login
failed"), and re-raise a propagated `HTTPException`, leaving the session in
place. -/
def route_login (m : SessionManager) (session_id username : String) (now : ℕ)
    (auth : AuthResult) : SessionManager × RouteOutcome :=
  let m1 := create_session m session_id username now
  match bot_login initial_bot username auth with
  | (bot2, LoginReturn.ret true _) =>
      (set_bot m1 session_id bot2, RouteOutcome.ok "Successfully logged in!")
  | (bot2, LoginReturn.ret false (some c)) =>
      (set_bot m1 session_id bot2, RouteOutcome.challenge c)
  | (bot2, LoginReturn.ret false none) =>
      (delete_session (set_bot m1 session_id bot2) session_id,
       RouteOutcome.failed "Login failed")
  | (bot2, LoginReturn.httpException st d) =>
      (set_bot m1 session_id bot2, RouteOutcome.raised st d)

/-- Empty registry, the `SessionManager()` singleton at startup. -/
def emptyManager : SessionManager := { sessions := [] }

/-- A logged-in runner, for concrete instantiations. -/
def botIn : InstagramBotManager := { is_logged_in := true, username := some "alice" }

/-- A client whose lookups always fail (every handle absent). -/
def capAbsent : Capability :=
  { user_info_by_username := fun _ => none, direct_send := fun _ _ => Except.ok () }

/-- A client whose deliveries always raise. -/
def capFailing : Capability :=
  { user_info_by_username := fun _ => some "9", direct_send := fun _ _ => Except.error "err" }

/-- A registry holding one session for "alice" created at time 0. -/
def managerWithTok : SessionManager := create_session emptyManager "tok" "alice" 0

/-! ## Association-list lemmas -/

theorem lookupList_cons (p : String × Session) (l : List (String × Session)) (sid : String) :
    lookupList (p :: l) sid = if p.1 = sid then some p.2 else lookupList l sid := by
  by_cases h : p.1 = sid <;> simp [lookupList, List.find?_cons, h]

theorem eraseKey_cons (p : String × Session) (l : List (String × Session)) (sid : String) :
    eraseKey (p :: l) sid = if p.1 = sid then eraseKey l sid else p :: eraseKey l sid := by
  by_cases h : p.1 = sid <;> simp [eraseKey, List.filter_cons, h]

theorem lookupList_eraseKey_self (l : List (String × Session)) (sid : String) :
    lookupList (eraseKey l sid) sid = none := by
  induction l with
  | nil => rfl
  | cons p t ih =>
    by_cases h : p.1 = sid
    · simpa [eraseKey_cons, h] using ih
    · simp [eraseKey_cons, h, lookupList_cons, ih]

theorem lookupList_eraseKey_ne (l : List (String × Session)) (sid tok : String)
    (h : tok ≠ sid) :
    lookupList (eraseKey l sid) tok = lookupList l tok := by
  induction l with
  | nil => rfl
  | cons p t ih =>
    by_cases hp : p.1 = sid
    · simp [eraseKey_cons, hp, lookupList_cons, ih, h.symm]
    · simp [eraseKey_cons, hp, lookupList_cons, ih]

theorem eraseKey_idem (l : List (String × Session)) (sid : String) :
    eraseKey (eraseKey l sid) sid = eraseKey l sid := by
  induction l with
  | nil => rfl
  | cons p t ih =>
    by_cases h : p.1 = sid <;> simp [eraseKey_cons, h, ih]

theorem eraseKey_of_absent (l : List (String × Session)) (sid : String)
    (h : lookupList l sid = none) : eraseKey l sid = l := by
  induction l with
  | nil => rfl
  | cons p t ih =>
    rw [lookupList_cons] at h
    by_cases hp : p.1 = sid
    · simp [hp] at h
    · rw [if_neg hp] at h
      simp [eraseKey_cons, hp, ih h]

theorem updateKey_cons (p : String × Session) (l : List (String × Session)) (sid : String)
    (f : Session → Session) :
    updateKey (p :: l) sid f =
      (if p.1 = sid then (p.1, f p.2) else p) :: updateKey l sid f := rfl

theorem lookupList_updateKey_self (l : List (String × Session)) (sid : String)
    (f : Session → Session) :
    lookupList (updateKey l sid f) sid = (lookupList l sid).map f := by
  induction l with
  | nil => rfl
  | cons p t ih =>
    by_cases h : p.1 = sid
    · simp [updateKey_cons, h, lookupList_cons]
    · simp [updateKey_cons, h, lookupList_cons, ih]

theorem lookupList_updateKey_ne (l : List (String × Session)) (sid tok : String)
    (f : Session → Session) (h : tok ≠ sid) :
    lookupList (updateKey l sid f) tok = lookupList l tok := by
  induction l with
  | nil => rfl
  | cons p t ih =>
    by_cases hp : p.1 = sid
    · simp [updateKey_cons, hp, lookupList_cons, ih, h.symm]
    · simp [updateKey_cons, hp, lookupList_cons, ih]

theorem updateKey_of_absent (l : List (String × Session)) (sid : String)
    (f : Session → Session) (h : lookupList l sid = none) : updateKey l sid f = l := by
  induction l with
  | nil => rfl
  | cons p t ih =>
    rw [lookupList_cons] at h
    by_cases hp : p.1 = sid
    · simp [hp] at h
    · rw [if_neg hp] at h
      simp [updateKey_cons, hp, ih h]

theorem length_updateKey (l : List (String × Session)) (sid : String) (f : Session → Session) :
    (updateKey l sid f).length = l.length := by
  simp [updateKey]

/-! ## C7 and C8 -/

/-- C7: `deleteSession` is idempotent — it removes the record if present,
raises no error when the token is absent (it is a total function and leaves
the registry unchanged in that case), and after one or two consecutive
calls the observable registry state is the same: the token is absent. -/
theorem c7_delete_idempotent (m : SessionManager) (session_id : String) :
    SessionManager.lookup (delete_session m session_id) session_id = none ∧
    delete_session (delete_session m session_id) session_id = delete_session m session_id ∧
    (SessionManager.lookup m session_id = none → delete_session m session_id = m) := by
  refine ⟨lookupList_eraseKey_self _ _, ?_, ?_⟩
  · simp [delete_session, eraseKey_idem]
  · intro h
    cases m with
    | mk l => exact congrArg SessionManager.mk (eraseKey_of_absent l session_id h)

theorem c7_delete_idempotent_witness :
    SessionManager.lookup (delete_session managerWithTok "tok") "tok" = none :=
  (c7_delete_idempotent managerWithTok "tok").1

/-- C8: for an existing session, `touchSession` rewrites only the
last-activity timestamp to now — the record's other fields (`expires_at`,
`created_at`, identity, runner) survive in the updated record, every other
token's lookup is unchanged, and the registry size is unchanged; for an
absent token the registry is literally unchanged. -/
theorem c8_touch_frame (m : SessionManager) (session_id : String) (now : ℕ) :
    (∀ s, SessionManager.lookup m session_id = some s →
       SessionManager.lookup (update_activity m session_id now) session_id =
         some { s with last_activity := now }) ∧
    (∀ tok, tok ≠ session_id →
       SessionManager.lookup (update_activity m session_id now) tok =
         SessionManager.lookup m tok) ∧
    (SessionManager.lookup m session_id = none → update_activity m session_id now = m) ∧
    (update_activity m session_id now).sessions.length = m.sessions.length := by
  refine ⟨?_, ?_, ?_, ?_⟩
  · intro s hs
    unfold SessionManager.lookup update_activity at *
    rw [lookupList_updateKey_self, hs]
    rfl
  · intro tok htok
    exact lookupList_updateKey_ne m.sessions session_id tok
      (fun s => { s with last_activity := now }) htok
  · intro h
    cases m with
    | mk l => exact congrArg SessionManager.mk (updateKey_of_absent l session_id _ h)
  · exact length_updateKey m.sessions session_id
      (fun s => { s with last_activity := now })

theorem c8_touch_frame_witness :
    SessionManager.lookup (update_activity managerWithTok "tok" 5) "tok" =
      some { username := "alice", created_at := 0, last_activity := 5,
             expires_at := 3600, bot_manager := initial_bot } :=
  (c8_touch_frame managerWithTok "tok" 5).1
    { username := "alice", created_at := 0, last_activity := 0,
      expires_at := 3600, bot_manager := initial_bot } (by decide)

/-! ## More registry lemmas -/

theorem lookupList_append_of_absent (l l2 : List (String × Session)) (sid : String)
    (h : lookupList l sid = none) : lookupList (l ++ l2) sid = lookupList l2 sid := by
  induction l with
  | nil => rfl
  | cons p t ih =>
    rw [lookupList_cons] at h
    by_cases hp : p.1 = sid
    · simp [hp] at h
    · rw [if_neg hp] at h
      rw [List.cons_append, lookupList_cons, if_neg hp]
      exact ih h

theorem eraseKey_append (l l2 : List (String × Session)) (sid : String) :
    eraseKey (l ++ l2) sid = eraseKey l sid ++ eraseKey l2 sid := by
  simp [eraseKey, List.filter_append]

theorem lookupList_eq_none_iff (l : List (String × Session)) (sid : String) :
    lookupList l sid = none ↔ ∀ p ∈ l, p.1 ≠ sid := by
  simp [lookupList, List.find?_eq_none]

theorem get_session_eq (m : SessionManager) (sid : String) (now : ℕ) (s : Session)
    (hl : SessionManager.lookup m sid = some s) :
    get_session m sid now =
      if s.expires_at < now then (none, { sessions := eraseKey m.sessions sid })
      else (some s, m) := by
  unfold SessionManager.lookup at hl
  unfold get_session
  rw [hl]

theorem not_mem_active_ids (m : SessionManager) (tok : String) (t2 : ℕ)
    (h : SessionManager.lookup m tok = none) :
    tok ∉ (get_active_sessions m t2).1.map SessionInfo.session_id := by
  intro hmem
  unfold SessionManager.lookup at h
  rw [lookupList_eq_none_iff] at h
  simp only [get_active_sessions, cleanup_expired_sessions] at hmem
  rw [List.map_map] at hmem
  rcases List.mem_map.1 hmem with ⟨p, hp, hid⟩
  exact h p (List.mem_of_mem_filter hp) hid

/-! ## C9 -/

/-- C9: every registry operation preserves the fixed-window equation
`expires_at = created_at + 3600` on every stored record (creation
establishes it for the new record), and `touchSession`, the only operation
rewriting a stored record, keeps every field other than `last_activity` of
every record unchanged. -/
theorem c9_fixed_window_invariant (m : SessionManager) (hm : SessionInvariant m)
    (session_id username : String) (now : ℕ) :
    SessionInvariant (create_session m session_id username now) ∧
    SessionInvariant ((get_session m session_id now).2) ∧
    SessionInvariant (update_activity m session_id now) ∧
    SessionInvariant (delete_session m session_id) ∧
    SessionInvariant (cleanup_expired_sessions m now) ∧
    SessionInvariant ((get_active_sessions m now).2) ∧
    (∀ tok, (SessionManager.lookup (update_activity m session_id now) tok).map
        (fun s => (s.username, s.created_at, s.expires_at, s.bot_manager)) =
      (SessionManager.lookup m tok).map
        (fun s => (s.username, s.created_at, s.expires_at, s.bot_manager))) := by
  refine ⟨?_, ?_, ?_, ?_, ?_, ?_, ?_⟩
  · intro p hp
    rcases List.mem_append.1 hp with h1 | h2
    · exact hm p h1
    · simp at h2
      rw [h2]
  · cases hl : lookupList m.sessions session_id with
    | none =>
      unfold get_session
      rw [hl]
      exact hm
    | some s =>
      rw [get_session_eq m session_id now s hl]
      by_cases hexp : s.expires_at < now
      · rw [if_pos hexp]
        intro p hp
        exact hm p (List.mem_of_mem_filter hp)
      · rw [if_neg hexp]
        exact hm
  · intro p hp
    simp only [update_activity, updateKey, List.mem_map] at hp
    rcases hp with ⟨q, hq, hpq⟩
    by_cases h : q.1 = session_id
    · rw [if_pos h] at hpq
      rw [← hpq]
      exact hm q hq
    · rw [if_neg h] at hpq
      rw [← hpq]
      exact hm q hq
  · intro p hp
    exact hm p (List.mem_of_mem_filter hp)
  · intro p hp
    exact hm p (List.mem_of_mem_filter hp)
  · intro p hp
    exact hm p (List.mem_of_mem_filter hp)
  · intro tok
    by_cases h : tok = session_id
    · subst h
      unfold SessionManager.lookup update_activity
      rw [lookupList_updateKey_self]
      cases lookupList m.sessions tok with
      | none => rfl
      | some s => rfl
    · unfold SessionManager.lookup update_activity
      rw [lookupList_updateKey_ne m.sessions session_id tok _ h]

theorem c9_fixed_window_invariant_witness :
    SessionInvariant (create_session managerWithTok "tok2" "bob" 7) :=
  (c9_fixed_window_invariant managerWithTok
    (by
      intro p hp
      simp [managerWithTok, create_session, emptyManager] at hp
      rw [hp]
      simp) "tok2" "bob" 7).1

/-! ## C1 -/

/-- C1 counterexample: a session created at time 0 with the design timeout
T = 3600 is still returned by `getSession` at the query time t = 3600,
i.e. exactly at `t >= T`, and nothing is evicted — refuting "returns absent
for any query at t >= T" (the code expires strictly after `expires_at`). -/
theorem c1_boundary_counterexample :
    (get_session managerWithTok "tok" 3600).1 =
      some { username := "alice", created_at := 0, last_activity := 0,
             expires_at := 3600, bot_manager := initial_bot } ∧
    ¬ ((get_session managerWithTok "tok" 3600).1 = none) ∧
    (get_session managerWithTok "tok" 3600).2 = managerWithTok := by
  decide

/-- C1 (amended): a session created with timeout T = 3600 under a fresh
token is returned by `getSession` for any query at `t <= createdAt + T`
(with the registry untouched), and for any query at `t > createdAt + T` it
returns absent and evicts the record as a side effect: the token no longer
resolves, the registry size drops by one, and the token is absent from
every subsequent `listActive` output. -/
theorem c1_expiry_amended (m0 : SessionManager) (session_id username : String)
    (t0 t : ℕ) (hfresh : SessionManager.lookup m0 session_id = none) :
    (t ≤ t0 + session_timeout →
       (get_session (create_session m0 session_id username t0) session_id t).1 =
         some { username := username, created_at := t0, last_activity := t0,
                expires_at := t0 + session_timeout, bot_manager := initial_bot } ∧
       (get_session (create_session m0 session_id username t0) session_id t).2 =
         create_session m0 session_id username t0) ∧
    (t0 + session_timeout < t →
       (get_session (create_session m0 session_id username t0) session_id t).1 = none ∧
       SessionManager.lookup
         ((get_session (create_session m0 session_id username t0) session_id t).2)
         session_id = none ∧
       ((get_session (create_session m0 session_id username t0) session_id t).2).sessions.length
           + 1 =
         (create_session m0 session_id username t0).sessions.length ∧
       ∀ t2, session_id ∉
         ((get_active_sessions
             ((get_session (create_session m0 session_id username t0) session_id t).2)
             t2).1.map SessionInfo.session_id)) := by
  have hl : SessionManager.lookup (create_session m0 session_id username t0) session_id =
      some { username := username, created_at := t0, last_activity := t0,
             expires_at := t0 + session_timeout, bot_manager := initial_bot } := by
    unfold SessionManager.lookup create_session
    rw [lookupList_append_of_absent _ _ _ hfresh]
    simp [lookupList_cons]
  constructor
  · intro ht
    rw [get_session_eq _ _ _ _ hl]
    rw [if_neg (by simpa using not_lt.2 ht)]
    exact ⟨rfl, rfl⟩
  · intro ht
    rw [get_session_eq _ _ _ _ hl]
    rw [if_pos (by simpa using ht)]
    have herase : eraseKey (m0.sessions ++
        [(session_id, { username := username, created_at := t0, last_activity := t0,
                        expires_at := t0 + session_timeout, bot_manager := initial_bot })])
        session_id = m0.sessions := by
      rw [eraseKey_append, eraseKey_of_absent _ _ hfresh]
      simp [eraseKey_cons, eraseKey]
    refine ⟨rfl, lookupList_eraseKey_self _ _, ?_, ?_⟩
    · show (eraseKey (m0.sessions ++
        [(session_id, { username := username, created_at := t0, last_activity := t0,
                        expires_at := t0 + session_timeout, bot_manager := initial_bot })])
        session_id).length + 1 = (create_session m0 session_id username t0).sessions.length
      rw [herase]
      simp [create_session]
    · intro t2
      exact not_mem_active_ids _ session_id t2 (lookupList_eraseKey_self _ _)

theorem c1_expiry_amended_witness :
    (get_session managerWithTok "tok" 3601).1 = none ∧
    SessionManager.lookup (get_session managerWithTok "tok" 3601).2 "tok" = none :=
  ⟨((c1_expiry_amended emptyManager "tok" "alice" 0 3601 rfl).2 (by decide)).1,
   ((c1_expiry_amended emptyManager "tok" "alice" 0 3601 rfl).2 (by decide)).2.1⟩

/-! ## Batch-send lemmas -/

theorem batch_loop_results (bot : InstagramBotManager) (cap : Capability) (message : String)
    (a b : ℚ) (u : ℕ → ℚ) (total : ℕ) (l : List String) (i : ℕ) :
    (batch_loop bot cap message a b u total l i).results =
      l.map (fun un => (send_message bot cap un message).1) := by
  induction l generalizing i with
  | nil => rfl
  | cons un rest ih =>
    by_cases h : i < total - 1 <;> simp [batch_loop, h, ih]

theorem batch_loop_cons (bot : InstagramBotManager) (cap : Capability) (message : String)
    (a b : ℚ) (u : ℕ → ℚ) (total : ℕ) (un : String) (rest : List String) (i : ℕ) :
    batch_loop bot cap message a b u total (un :: rest) i =
      if i < total - 1 then
        { results := (send_message bot cap un message).1 ::
            (batch_loop bot cap message a b u total rest (i + 1)).results,
          delays := uniform a b (u i) ::
            (batch_loop bot cap message a b u total rest (i + 1)).delays,
          calls := (send_message bot cap un message).2 ++
            (batch_loop bot cap message a b u total rest (i + 1)).calls }
      else
        { results := (send_message bot cap un message).1 ::
            (batch_loop bot cap message a b u total rest (i + 1)).results,
          delays := (batch_loop bot cap message a b u total rest (i + 1)).delays,
          calls := (send_message bot cap un message).2 ++
            (batch_loop bot cap message a b u total rest (i + 1)).calls } := rfl

theorem batch_loop_delays (bot : InstagramBotManager) (cap : Capability) (message : String)
    (a b : ℚ) (u : ℕ → ℚ) (total : ℕ) (l : List String) (i : ℕ)
    (htot : i + l.length = total) :
    (batch_loop bot cap message a b u total l i).delays =
      (List.range' i (l.length - 1)).map (fun j => uniform a b (u j)) := by
  induction l generalizing i with
  | nil => simp [batch_loop]
  | cons un rest ih =>
    cases rest with
    | nil =>
      have hge : ¬ (i < total - 1) := by
        simp only [List.length_cons, List.length_nil] at htot
        omega
      rw [batch_loop_cons, if_neg hge]
      simp [batch_loop]
    | cons r2 rs =>
      simp only [List.length_cons] at htot
      have hlt : i < total - 1 := by omega
      have ih2 := ih (i + 1) (by simp only [List.length_cons]; omega)
      rw [batch_loop_cons, if_pos hlt]
      show uniform a b (u i) ::
          (batch_loop bot cap message a b u total (r2 :: rs) (i + 1)).delays =
        (List.range' i ((un :: r2 :: rs).length - 1)).map (fun j => uniform a b (u j))
      rw [ih2]
      have h1 : (un :: r2 :: rs).length - 1 = rs.length + 1 := by simp
      have h2 : (r2 :: rs).length - 1 = rs.length := by simp
      rw [h1, h2, List.range'_succ, List.map_cons]

theorem uniform_mem_Icc (a b v : ℚ) (hab : a ≤ b) (h0 : 0 ≤ v) (h1 : v ≤ 1) :
    a ≤ uniform a b v ∧ uniform a b v ≤ b := by
  unfold uniform
  constructor
  · nlinarith
  · nlinarith

/-! ## C2, C3, C5, C6, C10 -/

/-- C2: `sendBatch` on a logged-out runner returns one "Not logged in"
failure per handle, in input order (the i-th result carries the i-th
handle), with no client call and no sleep — no partial attempt. -/
theorem c2_loggedout_batch (bot : InstagramBotManager) (cap : Capability)
    (usernames : List String) (message : String) (a b : ℚ) (u : ℕ → ℚ)
    (hlog : bot.is_logged_in = false) :
    send_messages_batch bot cap usernames message a b u =
      { results := usernames.map
          (fun un => { username := un, success := false, error := some "Not logged in" }),
        delays := [], calls := [] } ∧
    (send_messages_batch bot cap usernames message a b u).results.length =
      usernames.length := by
  constructor
  · simp [send_messages_batch, hlog]
  · simp [send_messages_batch, hlog]

theorem c2_loggedout_batch_witness :
    send_messages_batch initial_bot capAbsent ["bob", "carol"] "hi" 30 60 (fun _ => 0) =
      { results := [{ username := "bob", success := false, error := some "Not logged in" },
                    { username := "carol", success := false, error := some "Not logged in" }],
        delays := [], calls := [] } :=
  (c2_loggedout_batch initial_bot capAbsent ["bob", "carol"] "hi" 30 60 (fun _ => 0) rfl).1

/-- C3: on a logged-in runner the batch result list has the input's length
and its i-th element is exactly the per-item send outcome of the i-th
handle, whatever the individual outcomes are. -/
theorem c3_batch_order (bot : InstagramBotManager) (cap : Capability)
    (usernames : List String) (message : String) (a b : ℚ) (u : ℕ → ℚ)
    (hlog : bot.is_logged_in = true) (hne : usernames ≠ []) :
    (send_messages_batch bot cap usernames message a b u).results.length =
      usernames.length ∧
    ∀ i : ℕ, (send_messages_batch bot cap usernames message a b u).results[i]? =
      (usernames[i]?).map (fun un => (send_message bot cap un message).1) := by
  have hres : (send_messages_batch bot cap usernames message a b u).results =
      usernames.map (fun un => (send_message bot cap un message).1) := by
    simp [send_messages_batch, hlog, batch_loop_results]
  constructor
  · rw [hres]
    simp
  · intro i
    rw [hres]
    simp [List.getElem?_map]

theorem c3_batch_order_witness :
    (send_messages_batch botIn capAbsent ["bob", "carol"] "hi" 30 60 (fun _ => 0)).results.length
      = 2 :=
  (c3_batch_order botIn capAbsent ["bob", "carol"] "hi" 30 60 (fun _ => 0) rfl
    (by decide)).1

/-- C5: on a logged-in runner, an absent user-id lookup yields the failed
result "User not found" for that handle; a raised `direct_send` error is
caught and converted into a failed result carrying the error text; and no
per-item failure aborts the batch — for any client behaviour the batch
still returns one result per handle (it never throws, being a total
function). -/
theorem c5_item_failures (bot : InstagramBotManager) (cap : Capability)
    (handle message : String) (hlog : bot.is_logged_in = true) :
    (cap.user_info_by_username handle = none →
       (send_message bot cap handle message).1 =
         { username := handle, success := false, error := some "User not found" }) ∧
    (∀ uid e, cap.user_info_by_username handle = some uid →
       cap.direct_send message uid = Except.error e →
       (send_message bot cap handle message).1 =
         { username := handle, success := false,
           error := some ("Failed to send message: " ++ e) }) ∧
    (∀ usernames a b u,
       (send_messages_batch bot cap usernames message a b u).results.length =
         usernames.length) := by
  refine ⟨?_, ?_, ?_⟩
  · intro h
    simp [send_message, hlog, get_user_id, h]
  · intro uid e h1 h2
    simp [send_message, hlog, get_user_id, h1, h2]
  · intro usernames a b u
    simp [send_messages_batch, hlog, batch_loop_results]

theorem c5_item_failures_witness :
    (send_message botIn capAbsent "carol" "hi").1 =
      { username := "carol", success := false, error := some "User not found" } ∧
    (send_message botIn capFailing "bob" "hi").1 =
      { username := "bob", success := false,
        error := some ("Failed to send message: " ++ "err") } :=
  ⟨(c5_item_failures botIn capAbsent "carol" "hi" rfl).1 rfl,
   (c5_item_failures botIn capFailing "bob" "hi" rfl).2.1 "9" "err" rfl rfl⟩

/-- C6: a batch over n handles on a logged-in runner sleeps exactly n - 1
times — the j-th sleep consuming the j-th random draw, none after the last
send — and whenever `a <= b` and the draws are unit-interval samples, every
sampled delay `uniform a b (u j) = a + (b - a) * u j` lies in `[a, b]`. -/
theorem c6_delays (bot : InstagramBotManager) (cap : Capability) (usernames : List String)
    (message : String) (a b : ℚ) (u : ℕ → ℚ)
    (hlog : bot.is_logged_in = true) (hab : a ≤ b) (hu : ∀ i, 0 ≤ u i ∧ u i ≤ 1) :
    (send_messages_batch bot cap usernames message a b u).delays =
      (List.range (usernames.length - 1)).map (fun j => uniform a b (u j)) ∧
    (send_messages_batch bot cap usernames message a b u).delays.length =
      usernames.length - 1 ∧
    ∀ d ∈ (send_messages_batch bot cap usernames message a b u).delays,
      a ≤ d ∧ d ≤ b := by
  have hd : (send_messages_batch bot cap usernames message a b u).delays =
      (List.range (usernames.length - 1)).map (fun j => uniform a b (u j)) := by
    unfold send_messages_batch
    rw [hlog]
    simp only [Bool.true_eq_false, if_false]
    rw [batch_loop_delays bot cap message a b u usernames.length usernames 0 (by simp),
        List.range_eq_range']
  refine ⟨hd, ?_, ?_⟩
  · rw [hd]
    simp
  · intro d hdm
    rw [hd] at hdm
    rcases List.mem_map.1 hdm with ⟨j, _, hj⟩
    rw [← hj]
    exact uniform_mem_Icc a b (u j) hab (hu j).1 (hu j).2

theorem c6_delays_witness :
    (send_messages_batch botIn capAbsent ["bob", "carol", "dan"] "hi" 30 60
        (fun _ => 0)).delays =
      [uniform 30 60 0, uniform 30 60 0] :=
  (c6_delays botIn capAbsent ["bob", "carol", "dan"] "hi" 30 60 (fun _ => 0) rfl
    (by norm_num) (fun _ => by norm_num)).1

/-- C10: a batch over the empty handle list on a logged-in runner returns
the empty result list, makes no client call, and performs no sleep. -/
theorem c10_empty_batch (bot : InstagramBotManager) (cap : Capability) (message : String)
    (a b : ℚ) (u : ℕ → ℚ) (hlog : bot.is_logged_in = true) :
    send_messages_batch bot cap [] message a b u =
      { results := [], delays := [], calls := [] } := by
  simp [send_messages_batch, hlog, batch_loop]

theorem c10_empty_batch_witness :
    send_messages_batch botIn capAbsent [] "hi" 30 60 (fun _ => 0) =
      { results := [], delays := [], calls := [] } :=
  c10_empty_batch botIn capAbsent "hi" 30 60 (fun _ => 0) rfl

/-! ## C4 -/

/-- C4: after a login attempt on the `/api/login` route — a successful
authentication flips the session's runner to logged-in with the identity
recorded; a challenge-required outcome surfaces the challenge and leaves
the runner logged out; but an outright (non-challenge) failed login raises
an `HTTPException` inside `InstagramBotManager.login`, which the route
re-raises before it can reach its "Remove session if login failed" branch:
the session created for the attempt is NOT deleted — it remains in the
registry with a logged-out runner, contradicting the specified rollback. -/
theorem c4_login_rollback_bug :
    ((route_login emptyManager "tok" "alice" 0 AuthResult.ok).2 =
        RouteOutcome.ok "Successfully logged in!" ∧
      SessionManager.lookup (route_login emptyManager "tok" "alice" 0 AuthResult.ok).1 "tok" =
        some { username := "alice", created_at := 0, last_activity := 0,
               expires_at := 3600,
               bot_manager := { is_logged_in := true, username := some "alice" } }) ∧
    ((route_login emptyManager "tok" "alice" 0
          (AuthResult.challengeRequired "email" "url" none)).2 =
        RouteOutcome.challenge
          { requires_verification := true, challenge_type := "email",
            challenge_url := some "url", phone_number := none,
            message := "Instagram requires email verification" } ∧
      SessionManager.lookup (route_login emptyManager "tok" "alice" 0
          (AuthResult.challengeRequired "email" "url" none)).1 "tok" =
        some { username := "alice", created_at := 0, last_activity := 0,
               expires_at := 3600, bot_manager := initial_bot }) ∧
    ((route_login emptyManager "tok" "alice" 0 (AuthResult.raisedError "bad")).2 =
        RouteOutcome.raised 500 "Login failed: bad" ∧
      SessionManager.lookup (route_login emptyManager "tok" "alice" 0
          (AuthResult.raisedError "bad")).1 "tok" =
        some { username := "alice", created_at := 0, last_activity := 0,
               expires_at := 3600, bot_manager := initial_bot }) := by
  decide
